import Mathlib

/-!
Verification model of the parking-bot time-accounting engine.

Instants are modelled as integers counting milliseconds of timezone-naive
local time, with millisecond 0 falling on a local midnight (this matches
the JavaScript `Date` values the source manipulates: `getHours`,
`setHours(24,0,0,0)` and `setHours(8,0,0,0)` are all local-clock
operations, and the source never deals with time zones or DST).
`/` and `%` on `Int` below are euclidean division and remainder, which for
the positive divisors used here coincide with JavaScript's
`Math.floor(x / d)` and clock-of-day arithmetic.
-/

namespace ParkingBot

def msPerMinute : Int := 60000

def msPerHour : Int := 3600000

def msPerDay : Int := 86400000

/-- Local clock hour of an instant, as `Date.prototype.getHours` returns it. -/
def jsHour (t : Int) : Int := (t % msPerDay) / msPerHour

/-- Local midnight starting the calendar day of `t`
(the result of `setHours(0,0,0,0)` on a copy of `t`). -/
def dayStart (t : Int) : Int := t - t % msPerDay

/-- The next bucket boundary computed inside `Utils.calculateDayNightSplit`:
`setHours(24,0,0,0)` (next midnight) when the current hour is in the day
bucket, `setHours(8,0,0,0)` (8am of the same day) when it is in the night
bucket. -/
def nextBoundary (t : Int) : Int :=
  if 8 ≤ jsHour t then dayStart t + msPerDay else dayStart t + 8 * msPerHour

/-- `if (nextBoundary > end) nextBoundary = end` from the source. -/
def clampEnd (e b : Int) : Int := if e < b then e else b

/-- `Math.floor((nextBoundary - current) / (1000 * 60))` from the source. -/
def segMinutes (c b : Int) : Int := (b - c) / msPerMinute

theorem lt_nextBoundary (t : Int) : t < nextBoundary t := by
  unfold nextBoundary dayStart jsHour msPerDay msPerHour
  split <;> omega

theorem nextBoundary_le (t : Int) : nextBoundary t ≤ t + msPerDay := by
  unfold nextBoundary dayStart jsHour msPerDay msPerHour
  split <;> omega

/-- The `while (current < end)` loop of `Utils.calculateDayNightSplit`,
accumulating `dayMinutes` and `nightMinutes`. -/
def splitLoop (e c day night : Int) : Int × Int :=
  if _h : c < e then
    if 8 ≤ jsHour c then
      splitLoop e (clampEnd e (nextBoundary c))
        (day + segMinutes c (clampEnd e (nextBoundary c))) night
    else
      splitLoop e (clampEnd e (nextBoundary c))
        day (night + segMinutes c (clampEnd e (nextBoundary c)))
  else (day, night)
termination_by (e - c).toNat
decreasing_by
  all_goals
    have hb := lt_nextBoundary c
    unfold clampEnd
    split <;> omega

/-- Return value of `Utils.calculateDayNightSplit`. -/
structure DayNightSplit where
  dayMinutes : Int
  nightMinutes : Int
  totalMinutes : Int
deriving DecidableEq, Repr

/-- `Utils.calculateDayNightSplit(startDateTime, endDateTime)`. -/
def calculateDayNightSplit (s e : Int) : DayNightSplit :=
  let p := splitLoop e s 0 0
  ⟨p.1, p.2, p.1 + p.2⟩

/-- Whole minutes elapsed from `s` to `e` (the spec's `minutesBetween`):
the millisecond difference truncated to minutes. -/
def minutesBetween (s e : Int) : Int := (e - s) / msPerMinute

theorem dvd_nextBoundary (c : Int) : (60000 : Int) ∣ nextBoundary c := by
  unfold nextBoundary dayStart jsHour msPerDay msPerHour
  split <;> omega

/-- Loop invariant for `splitLoop` on whole-minute inputs: the two buckets
absorb exactly the whole minutes remaining between `c` and `e`. -/
theorem splitLoop_sum (k : Nat) :
    ∀ e c d n : Int, (e - c).toNat ≤ k → c ≤ e →
      (60000 : Int) ∣ c → (60000 : Int) ∣ e →
      (splitLoop e c d n).1 + (splitLoop e c d n).2 = d + n + (e - c) / 60000 := by
  induction k with
  | zero =>
    intro e c d n hk hce _ _
    have hce' : c = e := by omega
    subst hce'
    rw [splitLoop]
    simp
  | succ k ih =>
    intro e c d n hk hce hc he
    by_cases hlt : c < e
    · have hnb := lt_nextBoundary c
      have hnbd := dvd_nextBoundary c
      rw [splitLoop, dif_pos hlt]
      set b := clampEnd e (nextBoundary c) with hbdef
      have hb1 : c < b := by unfold clampEnd at hbdef; split at hbdef <;> omega
      have hb2 : b ≤ e := by unfold clampEnd at hbdef; split at hbdef <;> omega
      have hbd : (60000 : Int) ∣ b := by
        unfold clampEnd at hbdef
        split at hbdef <;> omega
      have hkb : (e - b).toNat ≤ k := by omega
      split
      · rw [ih e b _ n hkb hb2 hbd he]
        unfold segMinutes msPerMinute
        omega
      · rw [ih e b d _ hkb hb2 hbd he]
        unfold segMinutes msPerMinute
        omega
    · have hce' : c = e := by omega
      subst hce'
      rw [splitLoop]
      simp

/-! ## Calendar model

`Database.addParkingRecord` derives the aggregation key with
`new Date(startDateTime).getMonth() + 1` and `getFullYear()`;
`getCurrentMonthTotal`/`resetCurrentMonth` do the same on `new Date()`.
We model the proleptic Gregorian civil calendar on the local-time
millisecond axis (epoch day 0 = 1970-01-01), which is exactly what those
`Date` accessors compute for a timezone-naive instant. -/

/-- Civil (year, month) of a day count since 1970-01-01
(standard civil-from-days construction, months numbered 1-12). -/
def civilOfDays (z0 : Int) : Int × Int :=
  let z := z0 + 719468
  let era := z / 146097
  let doe := z - era * 146097
  let yoe := (doe - doe / 1460 + doe / 36524 - doe / 146096) / 365
  let y := yoe + era * 400
  let doy := doe - (365 * yoe + yoe / 4 - yoe / 100)
  let mp := (5 * doy + 2) / 153
  let m := mp + (if mp < 10 then 3 else -9)
  (y + (if m ≤ 2 then 1 else 0), m)

/-- `new Date(t).getMonth() + 1` (month 1-12). -/
def monthOf (t : Int) : Int := (civilOfDays (t / msPerDay)).2

/-- `new Date(t).getFullYear()`. -/
def yearOf (t : Int) : Int := (civilOfDays (t / msPerDay)).1

/-! ## Record store model (`Database`, final revision)

One row of `parking_records` / `monthly_totals`.  `start_datetime` /
`end_datetime` are stored by `Database.addParkingRecord` exactly as
passed in and compared for equality by `checkDuplicateRecord`; we model
the datetime values as instants.  `created_at DATETIME DEFAULT
CURRENT_TIMESTAMP` together with `AUTOINCREMENT` means rows are stamped
in insertion order; we model `created_at` by the insertion sequence
number. -/

structure ParkingRecord where
  id : Nat
  chatId : Int
  userId : Int
  username : String
  visitorName : String
  carPlate : String
  startDateTime : Int
  endDateTime : Int
  durationMinutes : Int
  dayMinutes : Int
  nightMinutes : Int
  month : Int
  year : Int
  createdAt : Nat
deriving DecidableEq, Repr

structure MonthlyTotal where
  chatId : Int
  username : String
  month : Int
  year : Int
  totalDurationMinutes : Int
  totalDayMinutes : Int
  totalNightMinutes : Int
deriving DecidableEq, Repr

structure DBState where
  records : List ParkingRecord
  totals : List MonthlyTotal
  nextId : Nat
deriving DecidableEq, Repr

def DBState.empty : DBState := ⟨[], [], 1⟩

/-- `WHERE chat_id = ? AND month = ? AND year = ?` on `monthly_totals`. -/
def matchTotal (chatId month year : Int) (t : MonthlyTotal) : Bool :=
  t.chatId == chatId && t.month == month && t.year == year

/-- The row update performed by the `UPDATE monthly_totals SET ...` statement. -/
def bumpTotal (totalM dayM nightM : Int) (t : MonthlyTotal) : MonthlyTotal :=
  { t with
    totalDurationMinutes := t.totalDurationMinutes + totalM
    totalDayMinutes := t.totalDayMinutes + dayM
    totalNightMinutes := t.totalNightMinutes + nightM }

/-- `Database.updateMonthlyTotal(chatId, username, month, year, dayMinutes,
nightMinutes)`: computes `totalMinutes = dayMinutes + nightMinutes`, tries
an `UPDATE` of the matching row, and falls back to an `INSERT` when no row
was changed. -/
def updateMonthlyTotal (db : DBState) (chatId : Int) (username : String)
    (month year dayM nightM : Int) : DBState :=
  let totalM := dayM + nightM
  if db.totals.any (matchTotal chatId month year) then
    { db with totals := db.totals.map fun t =>
        if matchTotal chatId month year t then bumpTotal totalM dayM nightM t else t }
  else
    { db with totals :=
        db.totals ++ [⟨chatId, username, month, year, totalM, dayM, nightM⟩] }

/-- The row built by the `INSERT INTO parking_records ...` statement of
`Database.addParkingRecord`. -/
def mkRecord (db : DBState) (chatId userId : Int) (username visitorName carPlate : String)
    (startDT endDT durationM dayM nightM : Int) : ParkingRecord :=
  ⟨db.nextId, chatId, userId, username, visitorName, carPlate, startDT, endDT,
    durationM, dayM, nightM, monthOf startDT, yearOf startDT, db.nextId⟩

/-- `Database.addParkingRecord(...)`: inserts the session row (month/year
derived from the start datetime) and then runs `updateMonthlyTotal`.
Returns the new row id together with the resulting store state. -/
def addParkingRecord (db : DBState) (chatId userId : Int)
    (username visitorName carPlate : String)
    (startDT endDT durationM dayM nightM : Int) : Nat × DBState :=
  let r := mkRecord db chatId userId username visitorName carPlate
    startDT endDT durationM dayM nightM
  let db1 : DBState := { db with records := db.records ++ [r], nextId := db.nextId + 1 }
  (r.id, updateMonthlyTotal db1 chatId username (monthOf startDT) (yearOf startDT) dayM nightM)

/-- `Database.addParkingRecord` with the outcome of each underlying store
statement made explicit (`true` = statement succeeds, `false` = the
sqlite call reports an error and the promise rejects).  sqlite statements
are individually atomic and the source opens no transaction, so a failing
statement leaves the store as the previous statements left it.  `none`
models the rejected promise (the `PersistenceError` of the spec). -/
def addParkingRecordF (db : DBState) (chatId userId : Int)
    (username visitorName carPlate : String)
    (startDT endDT durationM dayM nightM : Int)
    (insertOk updateOk : Bool) : Option Nat × DBState :=
  if !insertOk then (none, db)
  else
    let r := mkRecord db chatId userId username visitorName carPlate
      startDT endDT durationM dayM nightM
    let db1 : DBState := { db with records := db.records ++ [r], nextId := db.nextId + 1 }
    if !updateOk then (none, db1)
    else (some r.id,
      updateMonthlyTotal db1 chatId username (monthOf startDT) (yearOf startDT) dayM nightM)

/-- `Database.checkDuplicateRecord(chatId, carPlate, startDateTime)`:
`SELECT id FROM parking_records WHERE chat_id = ? AND car_plate = ? AND
start_datetime = ? LIMIT 1`, coerced to a boolean. -/
def checkDuplicateRecord (db : DBState) (chatId : Int) (carPlate : String)
    (startDT : Int) : Bool :=
  db.records.any fun r =>
    r.chatId == chatId && r.carPlate == carPlate && r.startDateTime == startDT

/-- Return shape of `Database.getCurrentMonthTotal`. -/
structure MonthTotalView where
  total : Int
  day : Int
  night : Int
deriving DecidableEq, Repr

/-- `Database.getCurrentMonthTotal(chatId)`: reads the row for the current
wall-clock month/year (`now` is the instant of the call) and returns
zeros when the row is absent. -/
def getCurrentMonthTotal (now : Int) (db : DBState) (chatId : Int) : MonthTotalView :=
  match db.totals.find? (matchTotal chatId (monthOf now) (yearOf now)) with
  | some t => ⟨t.totalDurationMinutes, t.totalDayMinutes, t.totalNightMinutes⟩
  | none => ⟨0, 0, 0⟩

/-- Insertion step of the sort modelling SQL `ORDER BY`. -/
def insertLe {α : Type} (le : α → α → Bool) (a : α) : List α → List α
  | [] => [a]
  | b :: bs => if le a b then a :: b :: bs else b :: insertLe le a bs

/-- Stable insertion sort modelling SQL `ORDER BY`. -/
def sortByKey {α : Type} (le : α → α → Bool) (l : List α) : List α :=
  l.foldr (insertLe le) []

/-- `ORDER BY year DESC, month DESC` on `monthly_totals`. -/
def totalDescLe (t1 t2 : MonthlyTotal) : Bool :=
  t2.year < t1.year || (t2.year == t1.year && t2.month ≤ t1.month)

/-- `ORDER BY created_at DESC` on `parking_records`. -/
def createdDescLe (r1 r2 : ParkingRecord) : Bool :=
  r2.createdAt ≤ r1.createdAt

/-- `ORDER BY year DESC, month DESC, created_at DESC` on `parking_records`. -/
def ymCreatedDescLe (r1 r2 : ParkingRecord) : Bool :=
  r2.year < r1.year ||
    (r2.year == r1.year &&
      (r2.month < r1.month || (r2.month == r1.month && r2.createdAt ≤ r1.createdAt)))

/-- `Database.getMonthlyHistory(chatId)`: rows of this chat ordered by
`year DESC, month DESC`, `LIMIT 12`. -/
def getMonthlyHistory (db : DBState) (chatId : Int) : List MonthlyTotal :=
  (sortByKey totalDescLe (db.totals.filter fun t => t.chatId == chatId)).take 12

/-- `Database.getCurrentMonthRecords(chatId)`: this chat's rows of the
current wall-clock month/year, newest first. -/
def getCurrentMonthRecords (now : Int) (db : DBState) (chatId : Int) : List ParkingRecord :=
  sortByKey createdDescLe (db.records.filter fun r =>
    r.chatId == chatId && r.month == monthOf now && r.year == yearOf now)

/-- `Database.getAllRecordsGroupedByMonth(chatId)`. -/
def getAllRecordsGroupedByMonth (db : DBState) (chatId : Int) : List ParkingRecord :=
  sortByKey ymCreatedDescLe (db.records.filter fun r => r.chatId == chatId)

/-- `Database.resetCurrentMonth(chatId)`: `DELETE FROM parking_records`
then `DELETE FROM monthly_totals`, both restricted to this chat and the
current wall-clock month/year. -/
def resetCurrentMonth (now : Int) (db : DBState) (chatId : Int) : DBState :=
  { db with
    records := db.records.filter fun r =>
      !(r.chatId == chatId && r.month == monthOf now && r.year == yearOf now)
    totals := db.totals.filter fun t =>
      !(matchTotal chatId (monthOf now) (yearOf now) t) }

/-- The `total == day + night` accumulator invariant of §3 of the spec. -/
def totalsInvariant (db : DBState) : Prop :=
  ∀ t ∈ db.totals, t.totalDurationMinutes = t.totalDayMinutes + t.totalNightMinutes

/-! ## Bot layer (`ParkingBot`, final revision of `bot.js`)

Only the store-visible control flow is modelled: message formatting and
transport calls are the notification sink of the spec. -/

/-- Outcome of the accounting part of `ParkingBot.handlePhoto` after a
successful extraction: the duplicate guard (`checkDuplicateRecord`)
either rejects the submission with no store access, or the session is
persisted through `addParkingRecord`. -/
inductive SubmitOutcome where
  | duplicate : SubmitOutcome
  | recorded : Nat → SubmitOutcome
deriving DecidableEq, Repr

/-- The dedupe-then-persist sequence of `ParkingBot.handlePhoto`
(bot.js: `checkDuplicateRecord` guard before `addParkingRecord`). -/
def recordSubmission (db : DBState) (chatId userId : Int)
    (username visitorName carPlate : String)
    (startDT endDT durationM dayM nightM : Int) : SubmitOutcome × DBState :=
  if checkDuplicateRecord db chatId carPlate startDT then
    (SubmitOutcome.duplicate, db)
  else
    (SubmitOutcome.recorded
        (addParkingRecord db chatId userId username visitorName carPlate
          startDT endDT durationM dayM nightM).1,
      (addParkingRecord db chatId userId username visitorName carPlate
        startDT endDT durationM dayM nightM).2)

/-- Outcome of issuing `/reset` (`ParkingBot.handleReset` before any
callback): with a zero current-month total the handler answers
"No parking records to reset" and registers nothing; otherwise it posts
the confirmation message and arms a one-shot `callback_query` listener
remembering the requesting user. -/
inductive ResetStart where
  | nothingToReset : ResetStart
  | awaitingConfirmation : ResetStart
deriving DecidableEq, Repr

/-- The pending one-shot confirmation listener registered by
`ParkingBot.handleReset` (`this.bot.once('callback_query', ...)`),
tagged with the chat of the request and the user who issued it. -/
structure PendingReset where
  chatId : Int
  initiator : Int
deriving DecidableEq, Repr

/-- `ParkingBot.handleReset` up to the confirmation dialogue: the zero
check on the current total guards everything else. -/
def handleReset (now : Int) (db : DBState) (chatId userId : Int) :
    ResetStart × Option PendingReset :=
  if (getCurrentMonthTotal now db chatId).total = 0 then
    (ResetStart.nothingToReset, none)
  else
    (ResetStart.awaitingConfirmation, some ⟨chatId, userId⟩)

/-- A `callback_query` payload: the `callback_data` attached to the two
inline buttons of the confirmation message. -/
inductive CbData where
  | confirmReset : Int → CbData
  | cancelReset : Int → CbData
deriving DecidableEq, Repr

/-- What the callback handling reports back to the pressing user. -/
inductive CbReply where
  | noListener : CbReply
  | notAuthorized : CbReply
  | resetDone : CbReply
  | cancelled : CbReply
  | unmatched : CbReply
deriving DecidableEq, Repr

/-- Arrival of a `callback_query` event.  `EventEmitter.once` removes the
listener when the first event fires, before the handler body runs, so
whatever the handler then decides (including the not-authorized early
return) the listener is gone.  With no listener armed the event is
simply dropped. -/
def onCallbackQuery (now : Int) (pending : Option PendingReset) (db : DBState)
    (actor : Int) (data : CbData) : Option PendingReset × DBState × CbReply :=
  match pending with
  | none => (none, db, CbReply.noListener)
  | some p =>
    if actor ≠ p.initiator then (none, db, CbReply.notAuthorized)
    else
      match data with
      | CbData.confirmReset c =>
        if c = p.chatId then (none, resetCurrentMonth now db p.chatId, CbReply.resetDone)
        else (none, db, CbReply.unmatched)
      | CbData.cancelReset c =>
        if c = p.chatId then (none, db, CbReply.cancelled)
        else (none, db, CbReply.unmatched)

/-! ## Helper lemmas about the interval splitter -/

theorem calculateDayNightSplit_eq_pair (s e : Int) :
    calculateDayNightSplit s e =
      ⟨(splitLoop e s 0 0).1, (splitLoop e s 0 0).2,
        (splitLoop e s 0 0).1 + (splitLoop e s 0 0).2⟩ := rfl

theorem segMinutes_eq (c b : Int) : segMinutes c b = minutesBetween c b := rfl

theorem dayStart_le (t : Int) : dayStart t ≤ t := by
  unfold dayStart msPerDay; omega

theorem lt_dayStart_add (t : Int) : t < dayStart t + msPerDay := by
  unfold dayStart msPerDay; omega

theorem lt_of_jsHour_lt8 (t : Int) (h : jsHour t < 8) :
    t < dayStart t + 8 * msPerHour := by
  unfold jsHour dayStart msPerHour msPerDay at *; omega

theorem dayStart_mod (t : Int) : dayStart t % msPerDay = 0 := by
  unfold dayStart msPerDay; omega

theorem jsHour_eq_zero_of_mod (t : Int) (h : t % msPerDay = 0) : jsHour t = 0 := by
  unfold jsHour msPerDay at *
  rw [h]
  decide

theorem dayStart_eq_self_of_mod (t : Int) (h : t % msPerDay = 0) : dayStart t = t := by
  unfold dayStart msPerDay at *; omega

/-- Behaviour of the splitter on an interval crossing exactly one midnight:
the segment before the midnight is charged to the day bucket, the segment
after it to the night bucket. -/
theorem c2_general (s e : Int) (h8 : 8 ≤ jsHour s) (he8 : jsHour e < 8)
    (hnext : dayStart e = dayStart s + msPerDay) :
    calculateDayNightSplit s e =
      ⟨minutesBetween s (dayStart s + msPerDay),
       minutesBetween (dayStart s + msPerDay) e,
       minutesBetween s (dayStart s + msPerDay) +
         minutesBetween (dayStart s + msPerDay) e⟩ := by
  have hsM : s < dayStart s + msPerDay := lt_dayStart_add s
  have hMe : dayStart s + msPerDay ≤ e := hnext ▸ dayStart_le e
  have hMmod : (dayStart s + msPerDay) % msPerDay = 0 := hnext ▸ dayStart_mod e
  have hM0 : jsHour (dayStart s + msPerDay) = 0 := jsHour_eq_zero_of_mod _ hMmod
  have heM8 : e < dayStart s + msPerDay + 8 * msPerHour := hnext ▸ lt_of_jsHour_lt8 e he8
  rw [calculateDayNightSplit_eq_pair]
  rw [splitLoop, dif_pos (lt_of_lt_of_le hsM hMe), if_pos h8]
  have hb1 : clampEnd e (nextBoundary s) = dayStart s + msPerDay := by
    unfold clampEnd nextBoundary
    rw [if_pos h8, if_neg (not_lt.mpr hMe)]
  rw [hb1]
  have hM0' : ¬ 8 ≤ jsHour (dayStart s + msPerDay) := by rw [hM0]; decide
  rcases lt_or_eq_of_le hMe with hMe' | hMe'
  · rw [splitLoop, dif_pos hMe', if_neg hM0']
    have hb2 : clampEnd e (nextBoundary (dayStart s + msPerDay)) = e := by
      unfold clampEnd nextBoundary
      rw [if_neg hM0', dayStart_eq_self_of_mod _ hMmod, if_pos heM8]
    rw [hb2]
    rw [splitLoop, dif_neg (lt_irrefl e)]
    rw [segMinutes_eq, segMinutes_eq]
    norm_num
  · rw [splitLoop, dif_neg (by omega : ¬ dayStart s + msPerDay < e)]
    rw [segMinutes_eq]
    rw [hMe']
    unfold minutesBetween
    norm_num

/-! ## Claim theorems -/

/-- Claim C1, counterexample: at start 07:59:30 and end 08:00:30 of the same
day (instants with a 30-second sub-minute component, which JavaScript
`Date` values admit) the splitter truncates both half-minute segments to
zero, so day + night = 0 while a whole minute elapsed. -/
theorem c1_counterexample :
    (28770000 : Int) ≤ 28830000 ∧
    ¬((calculateDayNightSplit 28770000 28830000).dayMinutes +
        (calculateDayNightSplit 28770000 28830000).nightMinutes =
      minutesBetween 28770000 28830000) := by
  constructor
  · decide
  · rw [calculateDayNightSplit_eq_pair]
    rw [splitLoop]
    norm_num [jsHour, msPerDay, msPerHour, nextBoundary, dayStart, clampEnd,
      segMinutes, msPerMinute, minutesBetween]
    rw [splitLoop]
    norm_num [jsHour, msPerDay, msPerHour, nextBoundary, dayStart, clampEnd,
      segMinutes, msPerMinute]
    rw [splitLoop]
    norm_num

/-- Claim C1 (amended): for start ≤ end both aligned to whole minutes — the
granularity at which the system ever builds instants — the day and night
buckets sum to the whole minutes between start and end; and a zero-length
interval yields zero for both buckets (unconditionally). -/
theorem c1_theorem :
    (∀ s e : Int, s ≤ e → (60000 : Int) ∣ s → (60000 : Int) ∣ e →
      (calculateDayNightSplit s e).dayMinutes +
        (calculateDayNightSplit s e).nightMinutes = minutesBetween s e) ∧
    (∀ s : Int, calculateDayNightSplit s s = ⟨0, 0, 0⟩) := by
  constructor
  · intro s e hse hs he
    rw [calculateDayNightSplit_eq_pair]
    have h := splitLoop_sum (e - s).toNat e s 0 0 le_rfl hse hs he
    simpa [minutesBetween, msPerMinute] using h
  · intro s
    rw [calculateDayNightSplit_eq_pair]
    rw [splitLoop]
    simp

/-- Claim C1 witness: the amended statement instantiated at the
one-minute interval from 00:00 to 00:01. -/
theorem c1_witness :
    (0 : Int) ≤ 60000 ∧
    ((calculateDayNightSplit 0 60000).dayMinutes +
      (calculateDayNightSplit 0 60000).nightMinutes = minutesBetween 0 60000) :=
  ⟨by decide, c1_theorem.1 0 60000 (by decide) (dvd_zero 60000) dvd_rfl⟩

/-- Claim C2: an interval starting in the day bucket and ending in the night
bucket of the next calendar day is split as minutes-to-midnight into day
and minutes-from-midnight into night; in particular Day1 22:00 → Day2
03:00 gives day = 120, night = 180, total = 300, and
2025-08-23 22:35 → 2025-08-24 01:00 (encoded as milliseconds of local
days 234 and 235 of 2025) gives day = 85, night = 60, total = 145. -/
theorem c2_theorem :
    (∀ s e : Int, 8 ≤ jsHour s → jsHour e < 8 → dayStart e = dayStart s + msPerDay →
      calculateDayNightSplit s e =
        ⟨minutesBetween s (dayStart s + msPerDay),
         minutesBetween (dayStart s + msPerDay) e,
         minutesBetween s (dayStart s + msPerDay) +
           minutesBetween (dayStart s + msPerDay) e⟩) ∧
    calculateDayNightSplit 79200000 97200000 = ⟨120, 180, 300⟩ ∧
    calculateDayNightSplit 20298900000 20307600000 = ⟨85, 60, 145⟩ := by
  refine ⟨c2_general, ?_, ?_⟩
  · rw [c2_general 79200000 97200000 (by decide) (by decide) (by decide)]
    decide
  · rw [c2_general 20298900000 20307600000 (by decide) (by decide) (by decide)]
    decide

/-- Claim C2 witness: the general one-crossing statement instantiated at
Day1 22:00 → Day2 03:00. -/
theorem c2_witness :
    (8 ≤ jsHour 79200000 ∧ jsHour 97200000 < 8 ∧
      dayStart 97200000 = dayStart 79200000 + msPerDay) ∧
    calculateDayNightSplit 79200000 97200000 =
      ⟨minutesBetween 79200000 (dayStart 79200000 + msPerDay),
       minutesBetween (dayStart 79200000 + msPerDay) 97200000,
       minutesBetween 79200000 (dayStart 79200000 + msPerDay) +
         minutesBetween (dayStart 79200000 + msPerDay) 97200000⟩ :=
  ⟨⟨by decide, by decide, by decide⟩,
    c2_theorem.1 79200000 97200000 (by decide) (by decide) (by decide)⟩

/-- Claim C10: every step of the splitter's walk strictly advances the
cursor toward a boundary at most 24 hours away (which is what makes the
well-founded definition of `splitLoop` go through), and an inverted
interval (end < start) performs zero iterations and returns zero for both
buckets. -/
theorem c10_theorem :
    (∀ t : Int, t < nextBoundary t ∧ nextBoundary t ≤ t + msPerDay) ∧
    (∀ s e : Int, e < s → calculateDayNightSplit s e = ⟨0, 0, 0⟩) := by
  constructor
  · exact fun t => ⟨lt_nextBoundary t, nextBoundary_le t⟩
  · intro s e hes
    rw [calculateDayNightSplit_eq_pair]
    rw [splitLoop, dif_neg (by omega)]
    rfl

/-- Claim C10 witness: boundary progress at instant 0 and the inverted
interval (1, 0). -/
theorem c10_witness :
    ((0 : Int) < nextBoundary 0 ∧ nextBoundary 0 ≤ 0 + msPerDay) ∧
    ((0 : Int) < 1 ∧ calculateDayNightSplit 1 0 = ⟨0, 0, 0⟩) :=
  ⟨c10_theorem.1 0, by decide, c10_theorem.2 1 0 (by decide)⟩

theorem updateMonthlyTotal_records (db : DBState) (c : Int) (un : String)
    (m y dm nm : Int) : (updateMonthlyTotal db c un m y dm nm).records = db.records := by
  unfold updateMonthlyTotal
  split <;> rfl

theorem addParkingRecord_records (db : DBState) (c u : Int) (un vn p : String)
    (s e dM dy ni : Int) :
    (addParkingRecord db c u un vn p s e dM dy ni).2.records =
      db.records ++ [mkRecord db c u un vn p s e dM dy ni] := by
  unfold addParkingRecord
  rw [updateMonthlyTotal_records]

theorem checkDuplicateRecord_iff (db : DBState) (c : Int) (p : String) (s : Int) :
    checkDuplicateRecord db c p s = true ↔
      ∃ r ∈ db.records, r.chatId = c ∧ r.carPlate = p ∧ r.startDateTime = s := by
  unfold checkDuplicateRecord
  simp [List.any_eq_true, Bool.and_eq_true, beq_iff_eq, and_assoc]

theorem checkDuplicate_after_submit (db : DBState) (c u : Int) (un vn p : String)
    (s e dM dy ni : Int) :
    checkDuplicateRecord
      (recordSubmission db c u un vn p s e dM dy ni).2 c p s = true := by
  unfold recordSubmission
  split
  · next h => exact h
  · rw [checkDuplicateRecord_iff, addParkingRecord_records]
    exact ⟨mkRecord db c u un vn p s e dM dy ni, by simp [mkRecord], rfl, rfl, rfl⟩

theorem recordSubmission_dup (db : DBState) (c u : Int) (un vn p : String)
    (s e dM dy ni : Int) (h : checkDuplicateRecord db c p s = true) :
    recordSubmission db c u un vn p s e dM dy ni = (SubmitOutcome.duplicate, db) := by
  unfold recordSubmission
  rw [if_pos h]

/-- Claim C3: the duplicate check is true iff a session with the exact
(chat, plate, start instant) triple exists, and submitting the same triple
a second time returns the Duplicate outcome with the store — and hence the
monthly total — exactly as the first submission left it. -/
theorem c3_theorem :
    (∀ (db : DBState) (c : Int) (p : String) (s : Int),
      checkDuplicateRecord db c p s = true ↔
        ∃ r ∈ db.records, r.chatId = c ∧ r.carPlate = p ∧ r.startDateTime = s) ∧
    (∀ (db : DBState) (now c u1 u2 : Int) (un1 vn1 un2 vn2 p : String)
        (s e1 e2 dM1 dy1 ni1 dM2 dy2 ni2 : Int),
      recordSubmission ((recordSubmission db c u1 un1 vn1 p s e1 dM1 dy1 ni1).2)
          c u2 un2 vn2 p s e2 dM2 dy2 ni2 =
        (SubmitOutcome.duplicate,
          (recordSubmission db c u1 un1 vn1 p s e1 dM1 dy1 ni1).2) ∧
      getCurrentMonthTotal now
          (recordSubmission ((recordSubmission db c u1 un1 vn1 p s e1 dM1 dy1 ni1).2)
            c u2 un2 vn2 p s e2 dM2 dy2 ni2).2 c =
        getCurrentMonthTotal now (recordSubmission db c u1 un1 vn1 p s e1 dM1 dy1 ni1).2 c) := by
  refine ⟨checkDuplicateRecord_iff, ?_⟩
  intro db now c u1 u2 un1 vn1 un2 vn2 p s e1 e2 dM1 dy1 ni1 dM2 dy2 ni2
  have hdup := checkDuplicate_after_submit db c u1 un1 vn1 p s e1 dM1 dy1 ni1
  have h2 := recordSubmission_dup (recordSubmission db c u1 un1 vn1 p s e1 dM1 dy1 ni1).2
    c u2 un2 vn2 p s e2 dM2 dy2 ni2 hdup
  exact ⟨h2, by rw [h2]⟩

/-- Claim C4, counterexample: with an empty store, a submission whose
session insert succeeds but whose monthly-total increment then fails
rejects with a persistence error (result `none`) yet leaves the session
row visible — `addSession` is not all-or-nothing. -/
theorem c4_counterexample :
    (addParkingRecordF DBState.empty 1 2 "u" "visitor" "ABC123"
        0 60000 1 0 1 true false).1 = none ∧
    (addParkingRecordF DBState.empty 1 2 "u" "visitor" "ABC123"
        0 60000 1 0 1 true false).2.records ≠ [] := by
  constructor
  · rfl
  · simp [addParkingRecordF, DBState.empty]

/-- Claim C4 (amended): each underlying sqlite statement is individually
atomic but the two are not wrapped in a transaction.  If the session
insert fails nothing is visible; if the monthly-total increment fails
after the insert, the session row stays visible while the totals are
unchanged; on success both effects are visible. -/
theorem c4_theorem :
    ∀ (db : DBState) (c u : Int) (un vn p : String) (s e dM dy ni : Int),
      (∀ updateOk, addParkingRecordF db c u un vn p s e dM dy ni false updateOk
          = (none, db)) ∧
      ((addParkingRecordF db c u un vn p s e dM dy ni true false).1 = none ∧
        (addParkingRecordF db c u un vn p s e dM dy ni true false).2.records
          = db.records ++ [mkRecord db c u un vn p s e dM dy ni] ∧
        (addParkingRecordF db c u un vn p s e dM dy ni true false).2.totals
          = db.totals) ∧
      addParkingRecordF db c u un vn p s e dM dy ni true true
        = (some (addParkingRecord db c u un vn p s e dM dy ni).1,
            (addParkingRecord db c u un vn p s e dM dy ni).2) := by
  intro db c u un vn p s e dM dy ni
  refine ⟨fun updateOk => rfl, ⟨rfl, rfl, rfl⟩, rfl⟩

theorem matchTotal_bump (c m y tm dm nm : Int) (t : MonthlyTotal) :
    matchTotal c m y (bumpTotal tm dm nm t) = matchTotal c m y t := rfl

theorem find?_map_bump (l : List MonthlyTotal) (c m y tm dm nm : Int) :
    (l.map fun t => if matchTotal c m y t then bumpTotal tm dm nm t else t).find?
        (matchTotal c m y) =
      (l.find? (matchTotal c m y)).map (bumpTotal tm dm nm) := by
  induction l with
  | nil => rfl
  | cons hd tl ih =>
    cases hp : matchTotal c m y hd with
    | true =>
      simp only [List.map_cons, List.find?_cons, hp, if_pos, matchTotal_bump]
      simp [hp]
    | false =>
      simp only [List.map_cons, List.find?_cons, hp]
      simp only [Bool.false_eq_true, if_false, hp]
      simp [ih]

theorem find?_append_none {α : Type} (l1 l2 : List α) (p : α → Bool)
    (h : l1.find? p = none) : (l1 ++ l2).find? p = l2.find? p := by
  induction l1 with
  | nil => rfl
  | cons hd tl ih =>
    rw [List.find?_cons] at h
    rw [List.cons_append, List.find?_cons]
    cases hp : p hd with
    | true =>
      rw [hp] at h
      simp at h
    | false =>
      rw [hp] at h
      simp only [hp]
      exact ih h

theorem find?_eq_none_of_any_false {α : Type} (l : List α) (p : α → Bool)
    (h : l.any p = false) : l.find? p = none := by
  rw [List.find?_eq_none]
  intro x hx
  rw [List.any_eq_false] at h
  exact fun hp => h x hx hp

theorem getCurrentMonthTotal_update (now : Int) (db : DBState) (c : Int)
    (un : String) (dm nm : Int) :
    getCurrentMonthTotal now
        (updateMonthlyTotal db c un (monthOf now) (yearOf now) dm nm) c =
      ⟨(getCurrentMonthTotal now db c).total + (dm + nm),
       (getCurrentMonthTotal now db c).day + dm,
       (getCurrentMonthTotal now db c).night + nm⟩ := by
  unfold getCurrentMonthTotal updateMonthlyTotal
  by_cases hany : db.totals.any (matchTotal c (monthOf now) (yearOf now))
  · rw [if_pos hany]
    simp only [find?_map_bump]
    rcases hf : db.totals.find? (matchTotal c (monthOf now) (yearOf now)) with _ | t0
    · rw [List.any_eq_true] at hany
      obtain ⟨t, ht, hpt⟩ := hany
      rw [List.find?_eq_none] at hf
      exact absurd hpt (hf t ht)
    · simp [bumpTotal]
  · rw [if_neg hany]
    have hnone := find?_eq_none_of_any_false _ _ (by simpa using hany)
    simp only [find?_append_none _ _ _ hnone, hnone]
    simp [List.find?_cons, matchTotal]

theorem updateMonthlyTotal_totals_congr (db db' : DBState) (c : Int) (un : String)
    (m y dm nm : Int) (h : db.totals = db'.totals) :
    (updateMonthlyTotal db c un m y dm nm).totals =
      (updateMonthlyTotal db' c un m y dm nm).totals := by
  unfold updateMonthlyTotal
  rw [h]
  split <;> simp

theorem getCurrentMonthTotal_congr (now : Int) (db db' : DBState) (c : Int)
    (h : db.totals = db'.totals) :
    getCurrentMonthTotal now db c = getCurrentMonthTotal now db' c := by
  unfold getCurrentMonthTotal
  rw [h]

/-- Claim C5: `addParkingRecord` bumps (or creates) the MonthlyTotal row
keyed by the chat and the month/year derived from the session's start
instant by exactly the session's minutes, so a `getCurrentMonthTotal`
issued while the wall clock is still in that month returns the previous
view plus exactly this session's (duration, day, night) minutes; and the
view is all zeros when no row matches the current month/year. -/
theorem c5_theorem :
    (∀ (db : DBState) (now c u : Int) (un vn p : String) (s e dM dy ni : Int),
      monthOf now = monthOf s → yearOf now = yearOf s → dM = dy + ni →
      getCurrentMonthTotal now (addParkingRecord db c u un vn p s e dM dy ni).2 c =
        ⟨(getCurrentMonthTotal now db c).total + dM,
         (getCurrentMonthTotal now db c).day + dy,
         (getCurrentMonthTotal now db c).night + ni⟩) ∧
    (∀ (now : Int) (db : DBState) (c : Int),
      (∀ t ∈ db.totals, matchTotal c (monthOf now) (yearOf now) t = false) →
      getCurrentMonthTotal now db c = ⟨0, 0, 0⟩) := by
  constructor
  · intro db now c u un vn p s e dM dy ni hm hy hdur
    have hT : (addParkingRecord db c u un vn p s e dM dy ni).2.totals =
        (updateMonthlyTotal db c un (monthOf s) (yearOf s) dy ni).totals := by
      unfold addParkingRecord
      exact updateMonthlyTotal_totals_congr _ db c un _ _ dy ni rfl
    rw [getCurrentMonthTotal_congr now _ _ c hT, ← hm, ← hy, hdur]
    exact getCurrentMonthTotal_update now db c un dy ni
  · intro now db c h
    unfold getCurrentMonthTotal
    rw [List.find?_eq_none.mpr (fun t ht => by simp [h t ht])]

/-- Claim C5 witness: a 50-minute session (30 day / 20 night) added to the
empty store at instant 0. -/
theorem c5_witness :
    (monthOf 0 = monthOf 0 ∧ yearOf 0 = yearOf 0 ∧ (50 : Int) = 30 + 20) ∧
    getCurrentMonthTotal 0 (addParkingRecord DBState.empty 1 2 "u" "v" "ABC123"
        0 60000 50 30 20).2 1 =
      ⟨(getCurrentMonthTotal 0 DBState.empty 1).total + 50,
       (getCurrentMonthTotal 0 DBState.empty 1).day + 30,
       (getCurrentMonthTotal 0 DBState.empty 1).night + 20⟩ :=
  ⟨⟨rfl, rfl, by decide⟩,
    c5_theorem.1 DBState.empty 0 1 2 "u" "v" "ABC123" 0 60000 50 30 20 rfl rfl (by decide)⟩

theorem totalsInvariant_update (db : DBState) (c : Int) (un : String)
    (m y dm nm : Int) (h : totalsInvariant db) :
    totalsInvariant (updateMonthlyTotal db c un m y dm nm) := by
  unfold totalsInvariant updateMonthlyTotal at *
  split
  · intro t ht
    simp only [List.mem_map] at ht
    obtain ⟨t0, ht0, rfl⟩ := ht
    split
    · simp [bumpTotal]
      have := h t0 ht0
      omega
    · exact h t0 ht0
  · intro t ht
    simp only [List.mem_append, List.mem_singleton] at ht
    rcases ht with ht | rfl
    · exact h t ht
    · rfl

/-- Claim C6: the `total == day + night` invariant of MonthlyTotal rows is
preserved by the total upsert, by a full `addParkingRecord`, and by a
month reset (it needs no assumption about the stored sessions, since
`updateMonthlyTotal` computes the total increment as day + night). -/
theorem c6_theorem :
    (∀ (db : DBState) (c : Int) (un : String) (m y dm nm : Int),
      totalsInvariant db → totalsInvariant (updateMonthlyTotal db c un m y dm nm)) ∧
    (∀ (db : DBState) (c u : Int) (un vn p : String) (s e dM dy ni : Int),
      totalsInvariant db →
      totalsInvariant (addParkingRecord db c u un vn p s e dM dy ni).2) ∧
    (∀ (now : Int) (db : DBState) (c : Int),
      totalsInvariant db → totalsInvariant (resetCurrentMonth now db c)) := by
  refine ⟨totalsInvariant_update, ?_, ?_⟩
  · intro db c u un vn p s e dM dy ni h
    unfold addParkingRecord
    apply totalsInvariant_update
    exact h
  · intro now db c h
    intro t ht
    exact h t (List.mem_of_mem_filter ht)

/-- Claim C6 witness: the invariant carried through an upsert on the empty
store. -/
theorem c6_witness :
    totalsInvariant DBState.empty ∧
    totalsInvariant (updateMonthlyTotal DBState.empty 1 "u" 8 2025 30 20) :=
  ⟨fun t ht => absurd ht (List.not_mem_nil t),
    c6_theorem.1 DBState.empty 1 "u" 8 2025 30 20 (fun t ht => absurd ht (List.not_mem_nil t))⟩

/-- Claim C7: `/reset` on a chat whose current-month total is zero answers
with the distinguishable nothing-to-reset signal and arms no deletion;
`resetCurrentMonth` removes exactly the session rows and the total row of
this chat and the current wall-clock month/year, keeping every row of
other chats and other months. -/
theorem c7_theorem :
    (∀ (now : Int) (db : DBState) (c u : Int),
      (getCurrentMonthTotal now db c).total = 0 →
      handleReset now db c u = (ResetStart.nothingToReset, none)) ∧
    (∀ (now : Int) (db : DBState) (c : Int) (r : ParkingRecord),
      r ∈ (resetCurrentMonth now db c).records ↔
        r ∈ db.records ∧
          ¬(r.chatId = c ∧ r.month = monthOf now ∧ r.year = yearOf now)) ∧
    (∀ (now : Int) (db : DBState) (c : Int) (t : MonthlyTotal),
      t ∈ (resetCurrentMonth now db c).totals ↔
        t ∈ db.totals ∧
          ¬(t.chatId = c ∧ t.month = monthOf now ∧ t.year = yearOf now)) := by
  refine ⟨?_, ?_, ?_⟩
  · intro now db c u h
    unfold handleReset
    rw [if_pos h]
  · intro now db c r
    unfold resetCurrentMonth
    simp [List.mem_filter, and_assoc]
    tauto
  · intro now db c t
    unfold resetCurrentMonth matchTotal
    simp [List.mem_filter, and_assoc]
    tauto

/-- Claim C7 witness: the zero-total branch on the empty store. -/
theorem c7_witness :
    ((getCurrentMonthTotal 0 DBState.empty 1).total = 0) ∧
    handleReset 0 DBState.empty 1 5 = (ResetStart.nothingToReset, none) :=
  ⟨by decide, c7_theorem.1 0 DBState.empty 1 5 (by decide)⟩

def c8Record : ParkingRecord :=
  ⟨1, 1, 10, "a", "v", "ABC123", 0, 60000, 1, 0, 1, monthOf 0, yearOf 0, 1⟩

def c8Total : MonthlyTotal := ⟨1, "a", monthOf 0, yearOf 0, 1, 0, 1⟩

def c8Db : DBState := ⟨[c8Record], [c8Total], 2⟩

/-- Claim C8, counterexample: the confirmation listener is registered with
`bot.once`, so the first callback — here a confirm by user 20, not the
initiator 10 — consumes it even though it is rejected as unauthorized;
the initiator's subsequent confirm finds no listener and the store is
never mutated, although a real reset would have changed it. -/
theorem c8_counterexample :
    onCallbackQuery 0 (some ⟨1, 10⟩) c8Db 20 (CbData.confirmReset 1) =
        (none, c8Db, CbReply.notAuthorized) ∧
    onCallbackQuery 0 none c8Db 10 (CbData.confirmReset 1) =
        (none, c8Db, CbReply.noListener) ∧
    resetCurrentMonth 0 c8Db 1 ≠ c8Db := by
  refine ⟨by decide, by decide, ?_⟩
  intro h
  have := congrArg (fun db => db.records) h
  simp [resetCurrentMonth, c8Db, c8Record] at this

/-- Claim C8 (amended): a confirm or cancel by a user other than the
initiator causes no store mutation and answers not-authorized, but it
consumes the one-shot listener instead of leaving the request awaiting
confirmation; the initiator's confirm applies the reset (exactly one
store mutation) only when it is the first callback to arrive, and any
callback after the listener is consumed is dropped. -/
theorem c8_theorem :
    (∀ (now : Int) (p : PendingReset) (db : DBState) (actor : Int) (d : CbData),
      actor ≠ p.initiator →
      onCallbackQuery now (some p) db actor d = (none, db, CbReply.notAuthorized)) ∧
    (∀ (now : Int) (p : PendingReset) (db : DBState),
      onCallbackQuery now (some p) db p.initiator (CbData.confirmReset p.chatId) =
        (none, resetCurrentMonth now db p.chatId, CbReply.resetDone)) ∧
    (∀ (now : Int) (db : DBState) (actor : Int) (d : CbData),
      onCallbackQuery now none db actor d = (none, db, CbReply.noListener)) := by
  refine ⟨?_, ?_, ?_⟩
  · intro now p db actor d h
    simp only [onCallbackQuery]
    rw [if_pos h]
  · intro now p db
    simp only [onCallbackQuery]
    rw [if_neg (by simp)]
    simp
  · intro now db actor d
    rfl

/-- Claim C8 witness: the foreign-actor branch at concrete users 20 vs 10. -/
theorem c8_witness :
    ((20 : Int) ≠ (PendingReset.mk 1 10).initiator) ∧
    onCallbackQuery 0 (some ⟨1, 10⟩) c8Db 20 (CbData.cancelReset 1) =
      (none, c8Db, CbReply.notAuthorized) :=
  ⟨by decide, c8_theorem.1 0 ⟨1, 10⟩ c8Db 20 (CbData.cancelReset 1) (by decide)⟩

theorem filter_append_single {α : Type} (l : List α) (a : α) (p : α → Bool)
    (h : p a = false) : (l ++ [a]).filter p = l.filter p := by
  simp [List.filter_append, List.filter, h]

theorem any_append_single {α : Type} (l : List α) (a : α) (p : α → Bool)
    (h : p a = false) : (l ++ [a]).any p = l.any p := by
  simp [List.any_append, h]

theorem find?_append_single {α : Type} (l : List α) (a : α) (p : α → Bool)
    (h : p a = false) : (l ++ [a]).find? p = l.find? p := by
  induction l with
  | nil => simp [List.find?, h]
  | cons hd tl ih =>
    rw [List.cons_append, List.find?_cons, List.find?_cons]
    cases hp : p hd with
    | true => rfl
    | false => exact ih

theorem find?_map_frame {α : Type} (f : α → α) (p : α → Bool) (l : List α)
    (h1 : ∀ a, p (f a) = p a) (h2 : ∀ a, p a = true → f a = a) :
    (l.map f).find? p = l.find? p := by
  induction l with
  | nil => rfl
  | cons hd tl ih =>
    rw [List.map_cons, List.find?_cons, List.find?_cons]
    cases hp : p hd with
    | true => rw [h1 hd, hp, h2 hd hp]
    | false => rw [h1 hd, hp]; exact ih

theorem filter_map_frame {α : Type} (f : α → α) (p : α → Bool) (l : List α)
    (h1 : ∀ a, p (f a) = p a) (h2 : ∀ a, p a = true → f a = a) :
    (l.map f).filter p = l.filter p := by
  induction l with
  | nil => rfl
  | cons hd tl ih =>
    rw [List.map_cons, List.filter_cons, List.filter_cons]
    cases hp : p hd with
    | true => rw [h1 hd, hp, h2 hd hp, ih]
    | false => rw [h1 hd, hp]; exact ih

theorem filter_filter_sub {α : Type} (q p : α → Bool) (l : List α)
    (h : ∀ a, p a = true → q a = true) : (l.filter q).filter p = l.filter p := by
  induction l with
  | nil => rfl
  | cons hd tl ih =>
    rw [List.filter_cons, List.filter_cons]
    cases hp : p hd with
    | true =>
      rw [h hd hp]
      simp only [if_pos]
      rw [List.filter_cons, hp]
      simp only [if_pos]
      rw [ih]
    | false =>
      cases hq : q hd with
      | true =>
        simp only [if_pos, if_neg]
        rw [List.filter_cons, hp]
        simp only [Bool.false_eq_true, if_false]
        exact ih
      | false =>
        simp only [Bool.false_eq_true, if_false]
        exact ih

theorem any_filter_sub {α : Type} (q p : α → Bool) (l : List α)
    (h : ∀ a, p a = true → q a = true) : (l.filter q).any p = l.any p := by
  induction l with
  | nil => rfl
  | cons hd tl ih =>
    rw [List.filter_cons, List.any_cons]
    cases hp : p hd with
    | true =>
      rw [h hd hp]
      simp only [if_pos]
      rw [List.any_cons, hp, ih]
    | false =>
      cases hq : q hd with
      | true =>
        simp only [if_pos]
        rw [List.any_cons, hp, ih]
      | false =>
        simp only [Bool.false_eq_true, if_false]
        rw [ih]
        simp

theorem find?_filter_sub {α : Type} (q p : α → Bool) (l : List α)
    (h : ∀ a, p a = true → q a = true) : (l.filter q).find? p = l.find? p := by
  induction l with
  | nil => rfl
  | cons hd tl ih =>
    rw [List.filter_cons]
    cases hp : p hd with
    | true =>
      rw [h hd hp]
      simp only [if_pos]
      rw [List.find?_cons, List.find?_cons, hp]
    | false =>
      cases hq : q hd with
      | true =>
        simp only [if_pos]
        rw [List.find?_cons, List.find?_cons, hp, ih]
      | false =>
        simp only [Bool.false_eq_true, if_false]
        rw [List.find?_cons, hp, ih]

theorem updateMonthlyTotal_find?_frame (db : DBState) (A : Int) (un : String)
    (m y dm nm : Int) (p : MonthlyTotal → Bool)
    (h1 : ∀ t, p (bumpTotal (dm + nm) dm nm t) = p t)
    (h2 : ∀ t, p t = true → matchTotal A m y t = false)
    (h3 : p ⟨A, un, m, y, dm + nm, dm, nm⟩ = false) :
    (updateMonthlyTotal db A un m y dm nm).totals.find? p = db.totals.find? p := by
  unfold updateMonthlyTotal
  split
  · simp only
    apply find?_map_frame
    · intro a
      by_cases hm : matchTotal A m y a
      · rw [if_pos hm]; exact h1 a
      · rw [if_neg hm]
    · intro a hpa
      rw [if_neg (by simp [h2 a hpa])]
  · simp only
    exact find?_append_single _ _ _ h3

theorem updateMonthlyTotal_filter_frame (db : DBState) (A : Int) (un : String)
    (m y dm nm : Int) (p : MonthlyTotal → Bool)
    (h1 : ∀ t, p (bumpTotal (dm + nm) dm nm t) = p t)
    (h2 : ∀ t, p t = true → matchTotal A m y t = false)
    (h3 : p ⟨A, un, m, y, dm + nm, dm, nm⟩ = false) :
    (updateMonthlyTotal db A un m y dm nm).totals.filter p = db.totals.filter p := by
  unfold updateMonthlyTotal
  split
  · simp only
    apply filter_map_frame
    · intro a
      by_cases hm : matchTotal A m y a
      · rw [if_pos hm]; exact h1 a
      · rw [if_neg hm]
    · intro a hpa
      rw [if_neg (by simp [h2 a hpa])]
  · simp only
    exact filter_append_single _ _ _ h3

theorem addParkingRecord_totals_find?_frame (db : DBState) (A u : Int)
    (un vn pl : String) (s e dM dy ni : Int) (p : MonthlyTotal → Bool)
    (h1 : ∀ t, p (bumpTotal (dy + ni) dy ni t) = p t)
    (h2 : ∀ t, p t = true → matchTotal A (monthOf s) (yearOf s) t = false)
    (h3 : p ⟨A, un, monthOf s, yearOf s, dy + ni, dy, ni⟩ = false) :
    (addParkingRecord db A u un vn pl s e dM dy ni).2.totals.find? p =
      db.totals.find? p := by
  unfold addParkingRecord
  exact updateMonthlyTotal_find?_frame _ A un _ _ dy ni p h1 h2 h3

theorem addParkingRecord_totals_filter_frame (db : DBState) (A u : Int)
    (un vn pl : String) (s e dM dy ni : Int) (p : MonthlyTotal → Bool)
    (h1 : ∀ t, p (bumpTotal (dy + ni) dy ni t) = p t)
    (h2 : ∀ t, p t = true → matchTotal A (monthOf s) (yearOf s) t = false)
    (h3 : p ⟨A, un, monthOf s, yearOf s, dy + ni, dy, ni⟩ = false) :
    (addParkingRecord db A u un vn pl s e dM dy ni).2.totals.filter p =
      db.totals.filter p := by
  unfold addParkingRecord
  exact updateMonthlyTotal_filter_frame _ A un _ _ dy ni p h1 h2 h3

theorem beq_false_of_ne {A B : Int} (h : A ≠ B) : (A == B) = false :=
  beq_eq_false_iff_ne.mpr h

theorem matchTotal_false_of_other_chat {A B : Int} (hAB : A ≠ B)
    (mm yy m2 y2 : Int) (t : MonthlyTotal) (ht : matchTotal B mm yy t = true) :
    matchTotal A m2 y2 t = false := by
  simp only [matchTotal, Bool.and_eq_true, beq_iff_eq] at ht
  simp only [matchTotal, ht.1.1, beq_false_of_ne (Ne.symm hAB), Bool.false_and]

theorem matchTotal_false_of_chatEq {A B : Int} (hAB : A ≠ B)
    (m2 y2 : Int) (t : MonthlyTotal) (ht : (t.chatId == B) = true) :
    matchTotal A m2 y2 t = false := by
  rw [beq_iff_eq] at ht
  simp only [matchTotal, ht, beq_false_of_ne (Ne.symm hAB), Bool.false_and]

/-- Claim C9: chat isolation.  Adding a session for chat A or resetting
chat A's current month leaves every query of a different chat B —
current-month total, monthly history, current-month sessions, full
grouped history and the duplicate check — with exactly the result it had
before the operation. -/
theorem c9_theorem :
    ∀ (db : DBState) (A B : Int), A ≠ B →
    ∀ (u : Int) (un vn pl : String) (s e dM dy ni now now2 : Int)
      (pl2 : String) (st : Int),
      getCurrentMonthTotal now2 (addParkingRecord db A u un vn pl s e dM dy ni).2 B
          = getCurrentMonthTotal now2 db B ∧
      getMonthlyHistory (addParkingRecord db A u un vn pl s e dM dy ni).2 B
          = getMonthlyHistory db B ∧
      getCurrentMonthRecords now2 (addParkingRecord db A u un vn pl s e dM dy ni).2 B
          = getCurrentMonthRecords now2 db B ∧
      getAllRecordsGroupedByMonth (addParkingRecord db A u un vn pl s e dM dy ni).2 B
          = getAllRecordsGroupedByMonth db B ∧
      checkDuplicateRecord (addParkingRecord db A u un vn pl s e dM dy ni).2 B pl2 st
          = checkDuplicateRecord db B pl2 st ∧
      getCurrentMonthTotal now2 (resetCurrentMonth now db A) B
          = getCurrentMonthTotal now2 db B ∧
      getMonthlyHistory (resetCurrentMonth now db A) B = getMonthlyHistory db B ∧
      getCurrentMonthRecords now2 (resetCurrentMonth now db A) B
          = getCurrentMonthRecords now2 db B ∧
      getAllRecordsGroupedByMonth (resetCurrentMonth now db A) B
          = getAllRecordsGroupedByMonth db B ∧
      checkDuplicateRecord (resetCurrentMonth now db A) B pl2 st
          = checkDuplicateRecord db B pl2 st := by
  intro db A B hAB u un vn pl s e dM dy ni now now2 pl2 st
  have hBAfalse : (A == B) = false := beq_false_of_ne hAB
  refine ⟨?_, ?_, ?_, ?_, ?_, ?_, ?_, ?_, ?_, ?_⟩
  · unfold getCurrentMonthTotal
    rw [addParkingRecord_totals_find?_frame db A u un vn pl s e dM dy ni
      (matchTotal B (monthOf now2) (yearOf now2))
      (fun t => rfl)
      (fun t ht => matchTotal_false_of_other_chat hAB _ _ _ _ t ht)
      (by simp [matchTotal, hBAfalse])]
  · unfold getMonthlyHistory
    rw [addParkingRecord_totals_filter_frame db A u un vn pl s e dM dy ni
      (fun t => t.chatId == B)
      (fun t => rfl)
      (fun t ht => matchTotal_false_of_chatEq hAB _ _ t ht)
      (by simp [hBAfalse])]
  · unfold getCurrentMonthRecords
    rw [addParkingRecord_records,
      filter_append_single _ _ _ (by simp [mkRecord, hBAfalse])]
  · unfold getAllRecordsGroupedByMonth
    rw [addParkingRecord_records,
      filter_append_single _ _ _ (by simp [mkRecord, hBAfalse])]
  · unfold checkDuplicateRecord
    rw [addParkingRecord_records,
      any_append_single _ _ _ (by simp [mkRecord, hBAfalse])]
  · unfold getCurrentMonthTotal resetCurrentMonth
    rw [find?_filter_sub _ _ _ ?_]
    intro t ht
    rw [matchTotal_false_of_other_chat hAB _ _ (monthOf now) (yearOf now) t ht]
    rfl
  · unfold getMonthlyHistory resetCurrentMonth
    rw [filter_filter_sub _ _ _ ?_]
    intro t ht
    rw [show matchTotal A (monthOf now) (yearOf now) t = false from
      matchTotal_false_of_chatEq hAB _ _ t ht]
    rfl
  · unfold getCurrentMonthRecords resetCurrentMonth
    rw [filter_filter_sub _ _ _ ?_]
    intro r hr
    simp only [Bool.and_eq_true, beq_iff_eq] at hr
    simp [hr.1.1, beq_false_of_ne (Ne.symm hAB)]
  · unfold getAllRecordsGroupedByMonth resetCurrentMonth
    rw [filter_filter_sub _ _ _ ?_]
    intro r hr
    rw [beq_iff_eq] at hr
    simp [hr, beq_false_of_ne (Ne.symm hAB)]
  · unfold checkDuplicateRecord resetCurrentMonth
    rw [any_filter_sub _ _ _ ?_]
    intro r hr
    simp only [Bool.and_eq_true, beq_iff_eq] at hr
    simp [hr.1.1, beq_false_of_ne (Ne.symm hAB)]

/-- Claim C9 witness: chat 2's current-month view is untouched by an
insertion for chat 1. -/
theorem c9_witness :
    ((1 : Int) ≠ 2) ∧
    getCurrentMonthTotal 0 (addParkingRecord DBState.empty 1 7 "u" "v" "ABC123"
        0 60000 1 0 1).2 2 = getCurrentMonthTotal 0 DBState.empty 2 :=
  ⟨by decide,
    (c9_theorem DBState.empty 1 2 (by decide) 7 "u" "v" "ABC123"
      0 60000 1 0 1 0 0 "X" 0).1⟩

end ParkingBot
